import Mathlib

set_option linter.unusedVariables false

deriving instance DecidableEq for Except

/-!
Verification development for the payment-orchestration subsystem of the
astrocartography web application: the order lifecycle handled by
src/services/order.ts, the checkout endpoints, the payment selector and the
PayPal webhook route.  JavaScript string/number fields that participate in
truthiness tests are embedded as String (with the empty string standing for
both a missing field and an empty value, which JavaScript treats alike under
the logical-or operator) and as Int (with 0 standing for a missing amount).
-/

namespace Astro

/-- JavaScript logical-or on string fields: the left operand unless it is
falsy (absent or empty). -/
def jsOr (a b : String) : String := if a = "" then b else a

/-- JavaScript logical-or on numeric fields: the left operand unless it is 0. -/
def jsOrI (a b : Int) : Int := if a = 0 then b else a

/-- JavaScript String.prototype.includes, on the underlying character lists. -/
def strIncludes (s sub : String) : Bool :=
  (List.range (s.data.length + 1)).any (fun i => sub.data.isPrefixOf (s.data.drop i))

/-- Order status constants of the models/order module.
Modelled from the spec: the order lifecycle states are the strings
written by the checkout endpoints and the webhook handlers,
with lifecycle status created to paid. -/
def statusCreated : String := "created"

/-- Order status constant for a paid order.
Modelled from the spec: the terminal lifecycle state. -/
def statusPaid : String := "paid"

/-- Parsed form of the order_detail JSON stored on a row.  Only the fields
the Creem reconciliation code reads are kept; an absent field is the empty
string (or 0 for the amount), matching JavaScript truthiness. -/
structure OrderDetail where
  creem_order_id : String
  checkout_url : String
  amount : Int
  user_email : String
deriving DecidableEq, Repr

/-- Stored paid_detail column: the JSON.stringify of the triggering payload,
kept in parsed form. -/
inductive PaidDetail where
  | emptyDetail : PaidDetail
  | stripeDetail (raw : String) : PaidDetail
  | creemDetail (raw : String) : PaidDetail
  | paypalDetail (raw : String) : PaidDetail
deriving DecidableEq, Repr

/-- A row of the orders table.  order_detail is None when the column is
empty (falsy), some None when it holds a string that does not parse as JSON,
and some (some d) when it parses. -/
structure OrderRow where
  order_no : String
  user_uuid : String
  user_email : String
  amount : Int
  credits : Int
  status : String
  stripe_session_id : String
  order_detail : Option (Option OrderDetail)
  created_at : Nat
  paid_at : String
  paid_email : String
  paid_detail : PaidDetail
  interval : String
  currency : String
  product_id : String
  product_name : String
  valid_months : Option Int
  expired_at : Nat
  pay_type : String
deriving DecidableEq, Repr

/-- Orders table, newest rows appended at the end. -/
abbrev OrdersDb := List OrderRow

/-- Lookup of an order by its order_no.
Modelled from the spec: the models/order module keys each row by the
generated order identifier. -/
def findOrderByOrderNo (db : OrdersDb) (no : String) : Option OrderRow :=
  db.find? (fun r => r.order_no = no)

/-- Lookup of an order by the provider session id stored in
stripe_session_id.
Modelled from the spec: the checkout endpoints attach the provider session
identifier to the order, and the PayPal handler looks the order up by it. -/
def findOrderBySessionId (db : OrdersDb) (sid : String) : Option OrderRow :=
  db.find? (fun r => r.stripe_session_id = sid)

/-- Lookup of an order by customer email and amount.
Modelled from the spec: the email plus amount fallback matching of the
webhook reconciliation. -/
def findOrderByEmailAndAmount (db : OrdersDb) (email : String) (amount : Int) :
    Option OrderRow :=
  db.find? (fun r => r.user_email = email ∧ r.amount = amount)

/-- Update of the lifecycle fields of the row keyed by an order_no.
Modelled from the spec: the transition of an order row to a new lifecycle
status together with the payment data. -/
def updateOrderStatus (db : OrdersDb) (no status paid_at paid_email : String)
    (paid_detail : PaidDetail) : OrdersDb :=
  db.map (fun r =>
    if r.order_no = no then
      { r with status := status, paid_at := paid_at,
               paid_email := paid_email, paid_detail := paid_detail }
    else r)

/-- Insertion of a new order row.
Modelled from the spec: the checkout endpoints insert the freshly created
order. -/
def insertOrder (db : OrdersDb) (r : OrderRow) : OrdersDb := db ++ [r]

/-- Attachment of a provider session id and detail blob to an order.
Modelled from the spec: the provider session identifier is attached to the
order after the hosted checkout session is created. -/
def updateOrderSession (db : OrdersDb) (no sid : String)
    (detail : OrderDetail) : OrdersDb :=
  db.map (fun r =>
    if r.order_no = no then
      { r with stripe_session_id := sid, order_detail := some (some detail) }
    else r)

/-- Side effects a handler performs besides updating the orders table. -/
inductive Event where
  | issueCredits (order_no : String) (credits : Int)
  | updateAffiliate (order_no : String)
  | sendEmail (order_no email : String)
  | insertOrderEv (order_no status : String)
  | providerSessionCreated (provider session_id : String)
  | orderSessionUpdated (order_no session_id : String)
deriving DecidableEq, Repr

/-- Result of a throwing handler: an error carries the message together with
the orders table and events at the moment of the throw. -/
abbrev HandlerResult := Except (String × List OrderRow × List Event) (List OrderRow × List Event)

/-- Events issued after a successful updateOrderStatus: credits when the
order has a user and positive credits, the affiliate update when it has a
user, and the confirmation email when a paid email is known. -/
def postPaidEvents (order : OrderRow) (paid_email : String) : List Event :=
  (if order.user_uuid ≠ "" ∧ order.credits > 0 then
      [Event.issueCredits order.order_no order.credits] else []) ++
  (if order.user_uuid ≠ "" then [Event.updateAffiliate order.order_no] else []) ++
  (if paid_email ≠ "" then [Event.sendEmail order.order_no paid_email] else [])

/-- Stripe checkout-session metadata, as read by handleOrderSession. -/
structure StripeMetadata where
  order_no : String
deriving DecidableEq, Repr

/-- Stripe checkout session, restricted to the fields handleOrderSession
reads.  raw stands for the JSON serialization stored as paid_detail. -/
structure StripeSession where
  metadata : Option StripeMetadata
  payment_status : String
  customer_details_email : String
  customer_email : String
  raw : String
deriving DecidableEq, Repr

/-- Stripe webhook handler handleOrderSession of src/services/order.ts. -/
def handleOrderSession (session : Option StripeSession) (db : OrdersDb)
    (nowIso : String) : HandlerResult :=
  match session with
  | none => .error ("invalid session", db, [])
  | some s =>
    match s.metadata with
    | none => .error ("invalid session", db, [])
    | some m =>
      if m.order_no = "" ∨ s.payment_status ≠ "paid" then
        .error ("invalid session", db, [])
      else
        match findOrderByOrderNo db m.order_no with
        | none => .error ("invalid order", db, [])
        | some order =>
          if order.status ≠ statusCreated then .error ("invalid order", db, [])
          else
            .ok (updateOrderStatus db m.order_no statusPaid nowIso
                   (jsOr s.customer_details_email s.customer_email)
                   (PaidDetail.stripeDetail s.raw),
                 postPaidEvents order (jsOr s.customer_details_email s.customer_email))

/-- Creem webhook payload, flattened to the optional-chaining paths that
handleCreemOrder reads.  String fields are the empty string when the path is
absent; amounts are 0 when absent; object_customer_email is the email when
object.customer is an object carrying one and empty otherwise. -/
structure CreemPaymentData where
  request_id : String
  object_request_id : String
  order_no : String
  order_id : String
  metadata_order_no : String
  metadata_order_id : String
  metadata_user_email : String
  object_metadata_order_no : String
  object_metadata_order_id : String
  object_order_metadata_order_no : String
  object_order_metadata_order_id : String
  object_order_id : String
  object_order_amount : Int
  object_order_amount_paid : Int
  amount : Int
  object_order_customer_email : String
  object_customer_email : String
  object_customer_email_direct : String
  customer_email : String
  email : String
  status : String
  payment_status : String
  object_order_status : String
  raw : String
deriving DecidableEq, Repr

/-- Order-number extraction chain of handleCreemOrder, request_id first. -/
def extractOrderNo (d : CreemPaymentData) : String :=
  jsOr d.request_id (jsOr d.object_request_id (jsOr d.order_no (jsOr d.order_id
    (jsOr d.metadata_order_no (jsOr d.metadata_order_id
      (jsOr d.object_metadata_order_no (jsOr d.object_metadata_order_id
        (jsOr d.object_order_metadata_order_no d.object_order_metadata_order_id))))))))

/-- Creem order id read from object.order.id. -/
def creemOrderIdOf (d : CreemPaymentData) : String := d.object_order_id

/-- Amount used by the recent-order scans: object.order.amount, else
data.amount, else 0. -/
def webhookAmountScan (d : CreemPaymentData) : Int :=
  jsOrI d.object_order_amount d.amount

/-- Email used by the Creem-order-id scan. -/
def webhookEmailScan (d : CreemPaymentData) : String :=
  jsOr d.object_customer_email (jsOr d.customer_email d.email)

/-- Email used by the email-plus-amount fallback lookup. -/
def customerEmailEA (d : CreemPaymentData) : String :=
  jsOr d.object_order_customer_email
    (jsOr d.object_customer_email (jsOr d.customer_email d.email))

/-- Amount used by the email-plus-amount fallback lookup. -/
def amountEA (d : CreemPaymentData) : Int :=
  jsOrI d.object_order_amount (jsOrI d.object_order_amount_paid d.amount)

/-- Payment status chain checked before marking the order paid on the
identifier path. -/
def paymentStatusOf (d : CreemPaymentData) : String :=
  jsOr d.object_order_status (jsOr d.status d.payment_status)

/-- Paid email recorded on the order by the identifier path. -/
def paidEmailCreem (d : CreemPaymentData) : String :=
  jsOr d.object_order_customer_email (jsOr d.object_customer_email
    (jsOr d.object_customer_email_direct (jsOr d.customer_email
      (jsOr d.email d.metadata_user_email))))

/-- Insertion of a row into a list sorted by created_at descending. -/
def insertDescBy (r : OrderRow) : List OrderRow → List OrderRow
  | [] => [r]
  | x :: xs => if x.created_at ≥ r.created_at then x :: insertDescBy r xs
               else r :: x :: xs

/-- Sort rows by created_at descending. -/
def sortByCreatedDesc : List OrderRow → List OrderRow
  | [] => []
  | x :: xs => insertDescBy x (sortByCreatedDesc xs)

/-- Query for the recent pending orders: status created, created within the
last 24 hours, newest first, limited. -/
def recentCreatedOrders (db : OrdersDb) (now : Nat) (limit : Nat) : List OrderRow :=
  (sortByCreatedDesc (db.filter (fun r =>
    r.status == statusCreated && r.created_at + 86400000 ≥ now))).take limit

/-- Match test of the Creem-order-id scan over a single recent order: either
the stored order_detail names the Creem order id (or a checkout URL
containing it), or the detail-or-row amount is within 1 of the webhook
amount with an equal (case-insensitive) email. -/
def creemScanMatches (d : CreemPaymentData) (r : OrderRow) : Bool :=
  match r.order_detail with
  | none => false
  | some none => false
  | some (some detail) =>
      (detail.creem_order_id == creemOrderIdOf d
        || (detail.checkout_url ≠ "" && strIncludes detail.checkout_url (creemOrderIdOf d)))
      || (webhookAmountScan d > 0 && webhookEmailScan d ≠ ""
          && (jsOrI detail.amount r.amount - webhookAmountScan d).natAbs ≤ 1
          && jsOr detail.user_email r.user_email ≠ ""
          && (jsOr detail.user_email r.user_email).toLower == (webhookEmailScan d).toLower)

/-- First reconciliation fallback of handleCreemOrder: scan the 50 most
recent created orders for one whose order_detail matches the Creem order
id, or failing that the webhook amount and email. -/
def creemIdScan (d : CreemPaymentData) (db : OrdersDb) (now : Nat) : Option OrderRow :=
  if creemOrderIdOf d = "" then none
  else (recentCreatedOrders db now 50).find? (creemScanMatches d)

/-- Second reconciliation fallback: exact lookup by customer email and
amount, accepted only when the matched order is still created. -/
def emailAmountStep (d : CreemPaymentData) (db : OrdersDb) : Option OrderRow :=
  if customerEmailEA d ≠ "" ∧ amountEA d > 0 then
    match findOrderByEmailAndAmount db (customerEmailEA d) (amountEA d) with
    | some m => if m.status = statusCreated then some m else none
    | none => none
  else none

/-- Last reconciliation fallback: the most recent of the 10 newest created
orders whose amount is within 1 of the webhook amount. -/
def amountOnlyScan (d : CreemPaymentData) (db : OrdersDb) (now : Nat) : Option OrderRow :=
  if webhookAmountScan d > 0 then
    (recentCreatedOrders db now 10).find? (fun r =>
      (r.amount - webhookAmountScan d).natAbs ≤ 1)
  else none

/-- Finishing step of handleCreemOrder once an order row is at hand: skip
unless the payment status is a success status, skip an already-processed
order, otherwise mark it paid and issue the post-payment events. -/
def creemFinishFound (d : CreemPaymentData) (db : OrdersDb) (order_no : String)
    (order : OrderRow) (nowIso : String) : HandlerResult :=
  if paymentStatusOf d ≠ "paid" ∧ paymentStatusOf d ≠ "succeeded" ∧
     paymentStatusOf d ≠ "completed" then .ok (db, [])
  else if order.status ≠ statusCreated then .ok (db, [])
  else
    .ok (updateOrderStatus db order_no statusPaid nowIso (paidEmailCreem d)
           (PaidDetail.creemDetail d.raw),
         postPaidEvents order (paidEmailCreem d))

/-- Tail of handleCreemOrder shared by the identifier path and the scan
fallbacks.  In the source the payment-status check precedes the order
lookup; both are pure, so the check is folded into each branch here with
the same results. -/
def creemFinish (d : CreemPaymentData) (db : OrdersDb) (order_no : String)
    (orderOpt : Option OrderRow) (nowIso : String) : HandlerResult :=
  match orderOpt with
  | some order => creemFinishFound d db order_no order nowIso
  | none =>
    match findOrderByOrderNo db order_no with
    | some order => creemFinishFound d db order_no order nowIso
    | none =>
      if paymentStatusOf d ≠ "paid" ∧ paymentStatusOf d ≠ "succeeded" ∧
         paymentStatusOf d ≠ "completed" then .ok (db, [])
      else .error ("invalid order: order not found", db, [])

/-- Block of handleCreemOrder entered when no order number is known yet
(source lines 245-367): try the email-plus-amount lookup (which marks the
order paid and returns at once), then the amount-only scan, and throw when
neither leaves an order number.  The throw also fires when the matched row
itself carries an empty order_no. -/
def creemNoIdBlock (d : CreemPaymentData) (db : OrdersDb) (now : Nat)
    (nowIso : String) : HandlerResult :=
  match emailAmountStep d db with
  | some m =>
      .ok (updateOrderStatus db m.order_no statusPaid nowIso (customerEmailEA d)
             (PaidDetail.creemDetail d.raw),
           postPaidEvents m (customerEmailEA d))
  | none =>
      match amountOnlyScan d db now with
      | some r =>
          if r.order_no = "" then
            .error ("order_no not found in Creem payment data", db, [])
          else creemFinish d db r.order_no (some r) nowIso
      | none => .error ("order_no not found in Creem payment data", db, [])

/-- Creem webhook handler handleCreemOrder of src/services/order.ts: the
identifier extraction, then the Creem-order-id scan, then the no-identifier
block, then the shared finish. -/
def handleCreemOrder (d : CreemPaymentData) (db : OrdersDb) (now : Nat)
    (nowIso : String) : HandlerResult :=
  if extractOrderNo d = "" then
    match creemIdScan d db now with
    | some r =>
        if r.order_no = "" then creemNoIdBlock d db now nowIso
        else creemFinish d db r.order_no (some r) nowIso
    | none => creemNoIdBlock d db now nowIso
  else creemFinish d db (extractOrderNo d) none nowIso

/-- PayPal webhook resource, restricted to the fields handlePayPalOrder and
the notify route read. -/
structure PayPalData where
  supplementary_order_id : String
  order_id : String
  payer_email : String
  id : String
  status : String
  raw : String
deriving DecidableEq, Repr

/-- PayPal webhook handler handlePayPalOrder of src/services/order.ts.  The
event type argument is only logged by the source and does not influence the
result. -/
def handlePayPalOrder (d : PayPalData) (eventType : String) (db : OrdersDb)
    (nowIso : String) : HandlerResult :=
  if jsOr d.supplementary_order_id d.order_id = "" then
    .error ("PayPal Order ID not found in webhook data", db, [])
  else
    match findOrderBySessionId db (jsOr d.supplementary_order_id d.order_id) with
    | none => .error ("Order not found for PayPal Order ID: " ++
                        jsOr d.supplementary_order_id d.order_id, db, [])
    | some order =>
      if order.status ≠ statusCreated then .ok (db, [])
      else
        .ok (updateOrderStatus db order.order_no statusPaid nowIso
               (jsOr d.payer_email order.user_email) (PaidDetail.paypalDetail d.raw),
             postPaidEvents order (jsOr d.payer_email order.user_email))

/-- PayPal transmission headers read by verifyPayPalWebhookSignature; an
absent header is the empty string. -/
structure PNHeaders where
  authAlgo : String
  certUrl : String
  transmissionId : String
  transmissionSig : String
  transmissionTime : String
deriving DecidableEq, Repr

/-- Webhook signature check of src/services/paypal.ts.  The body is read but
never used; the check only requires the five PAYPAL transmission headers and
a configured webhook id (the argument, defaulted from the environment). -/
def verifyPayPalWebhookSignature (body : String) (h : PNHeaders)
    (webhookIdArg envWebhookId : String) : Bool :=
  if h.authAlgo = "" ∨ h.certUrl = "" ∨ h.transmissionId = "" ∨
     h.transmissionSig = "" ∨ h.transmissionTime = "" then
    false
  else if jsOr webhookIdArg envWebhookId ≠ "" then true
  else false

/-- Parsed JSON body of a PayPal webhook call.  type_field embeds the JSON
field named type; resource and data are None when the field is absent or
falsy; asPayload is the whole payload viewed through the fields
handlePayPalOrder reads, used when the code falls back to the event object
itself. -/
structure PayPalEventData where
  event_type : String
  type_field : String
  resource : Option PayPalData
  data : Option PayPalData
  asPayload : PayPalData
deriving DecidableEq, Repr

/-- Event parser parsePayPalWebhookEvent of src/services/paypal.ts. -/
def parsePayPalWebhookEvent (e : PayPalEventData) : String × PayPalData :=
  if e.event_type ≠ "" then (e.event_type, e.resource.getD e.asPayload)
  else if e.type_field ≠ "" then (e.type_field, e.data.getD e.asPayload)
  else ("PAYMENT.CAPTURE.COMPLETED", e.asPayload)

/-- PayPal configuration read by the notify route. -/
structure PayPalEnv where
  clientId : String
  clientSecret : String
  webhookId : String
deriving DecidableEq, Repr

/-- Body of a notify request: empty, unparseable JSON (carrying the parse
error message), or parsed. -/
inductive NotifyBody where
  | emptyBody : NotifyBody
  | malformed (msg : String) : NotifyBody
  | parsed (e : PayPalEventData) : NotifyBody
deriving DecidableEq, Repr

/-- HTTP response of a webhook route. -/
inductive RouteResp where
  | okResp : RouteResp
  | errResp (status : Nat) (msg : String) : RouteResp
deriving DecidableEq, Repr

/-- POST handler of src/app/api/paypal-notify/route.ts.  The result of
verifyPayPalWebhookSignature enters as the isValid argument; the source
computes it, logs it, and continues identically in both cases. -/
def paypalNotifyPOST (env : PayPalEnv) (body : NotifyBody) (isValid : Bool)
    (db : OrdersDb) (nowIso : String) : RouteResp × OrdersDb × List Event :=
  if env.clientId = "" ∨ env.clientSecret = "" then
    (.errResp 500 "handle paypal notify failed: invalid PayPal config", db, [])
  else
    match body with
    | .emptyBody =>
        (.errResp 500 "handle paypal notify failed: invalid notify data", db, [])
    | .malformed msg =>
        (.errResp 500 ("handle paypal notify failed: " ++ msg), db, [])
    | .parsed e =>
        if (parsePayPalWebhookEvent e).1 = "PAYMENT.CAPTURE.COMPLETED" ∨
           (parsePayPalWebhookEvent e).1 = "PAYMENT.SALE.COMPLETED" then
          match handlePayPalOrder (parsePayPalWebhookEvent e).2
                  (parsePayPalWebhookEvent e).1 db nowIso with
          | .ok (db', evs) => (.okResp, db', evs)
          | .error (msg, dbE, evsE) =>
              (.errResp 500 ("handle paypal notify failed: " ++ msg), dbE, evsE)
        else
          (.okResp, db, [])

/-- Pricing table entry as checked by the checkout endpoints; Option fields
embed possibly-undefined JSON fields compared with strict equality. -/
structure PricingItem where
  product_id : String
  amount : Int
  cn_amount : Option Int
  currency : String
  interval : String
  credits : Option Int
  valid_months : Option Int
deriving DecidableEq, Repr

/-- Request body of the unified checkout endpoint. -/
structure CheckoutReq where
  credits : Option Int
  currency : String
  amount : Int
  interval : String
  product_id : String
  product_name : String
  valid_months : Option Int
  cancel_url : String
  locale : String
  payment_method : String
deriving DecidableEq, Repr

/-- Request body of the Creem checkout endpoint. -/
structure CreemCheckoutReq where
  credits : Option Int
  currency : String
  amount : Int
  interval : String
  product_id : String
  product_name : String
  valid_months : Option Int
  cancel_url : String
  locale : String
  creem_product_id : String
deriving DecidableEq, Repr

/-- Environment and external-call oracles of a checkout request: the pricing
page, the authenticated user, which gateways are configured, the generated
order number and clock, and the results the provider APIs would return. -/
structure CheckoutEnv where
  pricing : Option (List PricingItem)
  user_uuid : String
  session_email : String
  db_user_email : String
  stripeKeyConfigured : Bool
  paypalConfigured : Bool
  creemApiKeyConfigured : Bool
  creemProductIdConfigured : Bool
  creemTestMode : Bool
  snow_id : String
  now : Nat
  nowIso : String
  stripeCreate : Except String String
  paypalCreate : Except String (String × String)
  creemCreate : Except String (String × String)
deriving Repr

/-- Gateway auto-selection of src/services/payment-selector.ts, priority
Stripe, then PayPal, then Creem. -/
def selectPaymentMethod (env : CheckoutEnv) : Option String :=
  if env.stripeKeyConfigured then some "stripe"
  else if env.paypalConfigured then some "paypal"
  else if env.creemApiKeyConfigured ∨ env.creemProductIdConfigured then some "creem"
  else none

/-- Creem configuration test of the unified checkout route. -/
def creemConfigured (env : CheckoutEnv) : Prop :=
  env.creemApiKeyConfigured ∨ env.creemProductIdConfigured

instance (env : CheckoutEnv) : Decidable (creemConfigured env) := by
  unfold creemConfigured; infer_instance

/-- Payment-method resolution of the unified checkout POST: the requested
method when present, else creem when Creem is configured, else the
auto-selected gateway. -/
def resolvePaymentMethod (env : CheckoutEnv) (pm : String) : Option String :=
  if pm ≠ "" then some pm
  else if creemConfigured env then some "creem"
  else selectPaymentMethod env

/-- Subscription test of the checkout routes: a month or year interval. -/
def isSubscription (interval : String) : Bool :=
  interval == "month" || interval == "year"

/-- Timestamp of the permanent-plan expiry 2099-12-31T23:59:59.999Z in
milliseconds. -/
def permanentExpiryMillis : Nat := 4102444799999

/-- Month stepping of the expiry computation.  JavaScript Date.setMonth does
calendar arithmetic; it is abstracted here as 30-day months, which no stated
property depends on. -/
def addMonthsMillis (t : Nat) (m : Int) : Nat := ((t : Int) + m * 2592000000).toNat

/-- Expiry computation of the unified checkout route. -/
def checkoutExpiredAt (env : CheckoutEnv) (req : CheckoutReq)
    (is_subscription : Bool) : Nat :=
  (if req.valid_months = some 0 ∧ req.interval = "one-time" then
      permanentExpiryMillis
   else if req.product_id = "premium-2weeks" ∧ req.valid_months = some 0 then
      env.now + 14 * 86400000
   else addMonthsMillis env.now ((req.valid_months).getD 0)) +
  (if is_subscription then 86400000 else 0)

/-- Validation and order creation of the unified checkout route
(validateAndCreateOrder of src/app/api/checkout/route.ts); on success it
yields the row inserted with status created. -/
def validateAndCreateOrder (env : CheckoutEnv) (req : CheckoutReq)
    (pay_type : String) : Except String OrderRow :=
  if req.amount = 0 ∨ req.interval = "" ∨ req.currency = "" ∨ req.product_id = "" then
    .error "invalid params"
  else
    match env.pricing with
    | none => .error "invalid pricing table"
    | some items =>
      match items.find? (fun it => it.product_id == req.product_id) with
      | none => .error "invalid checkout params"
      | some item =>
        if item.amount = 0 ∨ item.interval = "" ∨ item.currency = "" ∨
           item.interval ≠ req.interval ∨ item.credits ≠ req.credits ∨
           item.valid_months ≠ req.valid_months ∨
           ¬(if req.currency = "cny" then item.cn_amount = some req.amount
             else item.amount = req.amount ∧ item.currency = req.currency) then
          .error "invalid checkout params"
        else if ¬(req.interval = "year" ∨ req.interval = "month" ∨
                  req.interval = "one-time") then
          .error "invalid interval"
        else if req.interval = "year" ∧ req.valid_months ≠ some 12 then
          .error "invalid valid_months"
        else if req.interval = "month" ∧ req.valid_months ≠ some 1 then
          .error "invalid valid_months"
        else if env.user_uuid = "" then
          .error "no auth, please sign-in"
        else if jsOr env.session_email env.db_user_email = "" then
          .error "invalid user"
        else
          .ok { order_no := env.snow_id
                user_uuid := env.user_uuid
                user_email := jsOr env.session_email env.db_user_email
                amount := req.amount
                credits := (req.credits).getD 0
                status := statusCreated
                stripe_session_id := ""
                order_detail := none
                created_at := env.now
                paid_at := ""
                paid_email := ""
                paid_detail := PaidDetail.emptyDetail
                interval := req.interval
                currency := req.currency
                product_id := req.product_id
                product_name := req.product_name
                valid_months := req.valid_months
                expired_at := checkoutExpiredAt env req
                  (isSubscription req.interval)
                pay_type := pay_type }

/-- Data part of a checkout response. -/
inductive CheckoutResult where
  | stripeRes (order_no session_id : String)
  | paypalRes (approval_url order_id order_no : String)
  | creemRedirect (order_no : String)
  | creemSession (checkout_url session_id order_no : String)
deriving DecidableEq, Repr

/-- JSON response of a checkout endpoint. -/
inductive ApiResp where
  | data (r : CheckoutResult)
  | err (msg : String)
deriving DecidableEq, Repr

/-- POST handler of src/app/api/checkout/route.ts: resolve the gateway,
validate and insert the order, then create the provider session and attach
it; thrown errors surface as error responses with the state reached so
far. -/
def checkoutPOST (env : CheckoutEnv) (req : CheckoutReq) (db : OrdersDb) :
    ApiResp × OrdersDb × List Event :=
  match resolvePaymentMethod env req.payment_method with
  | none =>
      (.err "No payment method available. Please configure at least one payment gateway.",
       db, [])
  | some pm =>
    match validateAndCreateOrder env req pm with
    | .error m => (.err (jsOr m "checkout failed"), db, [])
    | .ok row =>
      match pm with
      | "stripe" =>
          if ¬env.stripeKeyConfigured then
            (.err "STRIPE_PRIVATE_KEY is not configured", insertOrder db row,
             [Event.insertOrderEv row.order_no row.status])
          else
            match env.stripeCreate with
            | .error m =>
                (.err (jsOr m "checkout failed"), insertOrder db row,
                 [Event.insertOrderEv row.order_no row.status])
            | .ok sid =>
                (.data (.stripeRes row.order_no sid),
                 updateOrderSession (insertOrder db row) row.order_no sid ⟨"", "", 0, ""⟩,
                 [Event.insertOrderEv row.order_no row.status,
                  Event.providerSessionCreated "stripe" sid,
                  Event.orderSessionUpdated row.order_no sid])
      | "paypal" =>
          match env.paypalCreate with
          | .error m =>
              (.err (jsOr m "checkout failed"), insertOrder db row,
               [Event.insertOrderEv row.order_no row.status])
          | .ok (oid, aurl) =>
              (.data (.paypalRes aurl oid row.order_no),
               updateOrderSession (insertOrder db row) row.order_no oid
                 ⟨"", "", req.amount, row.user_email⟩,
               [Event.insertOrderEv row.order_no row.status,
                Event.providerSessionCreated "paypal" oid,
                Event.orderSessionUpdated row.order_no oid])
      | "creem" =>
          (.data (.creemRedirect row.order_no), insertOrder db row,
           [Event.insertOrderEv row.order_no row.status])
      | other =>
          (.err ("Unsupported payment method: " ++ other), insertOrder db row,
           [Event.insertOrderEv row.order_no row.status])

/-- URL percent-encoding of encodeURIComponent, abstracted as the identity;
no stated property inspects the encoded text. -/
def encodeUriComponent (s : String) : String := s

/-- Expiry computation of the Creem checkout route (it has no
permanent-plan branch). -/
def creemExpiredAt (env : CheckoutEnv) (req : CreemCheckoutReq)
    (is_subscription : Bool) : Nat :=
  (if req.product_id = "premium-2weeks" ∧ req.valid_months = some 0 then
      env.now + 14 * 86400000
   else addMonthsMillis env.now ((req.valid_months).getD 0)) +
  (if is_subscription then 86400000 else 0)

/-- Credits fix-up of the Creem checkout route: a zero or missing requested
credits value is replaced by the configured one when that is positive. -/
def creemAdjustedCredits (item : PricingItem) (reqCredits : Option Int) : Option Int :=
  if (reqCredits.getD 0) = 0 ∧ (item.credits).getD 0 > 0 then item.credits
  else reqCredits

/-- Row the Creem checkout route inserts, always with status created. -/
def creemCheckoutRow (env : CheckoutEnv) (req : CreemCheckoutReq)
    (item : PricingItem) : OrderRow :=
  { order_no := env.snow_id
    user_uuid := env.user_uuid
    user_email := jsOr env.session_email env.db_user_email
    amount := req.amount
    credits := (creemAdjustedCredits item req.credits).getD 0
    status := statusCreated
    stripe_session_id := ""
    order_detail := none
    created_at := env.now
    paid_at := ""
    paid_email := ""
    paid_detail := PaidDetail.emptyDetail
    interval := req.interval
    currency := req.currency
    product_id := req.product_id
    product_name := req.product_name
    valid_months := req.valid_months
    expired_at := creemExpiredAt env req (isSubscription req.interval)
    pay_type := "" }

/-- Direct Creem payment URL built from a supplied product id. -/
def creemDirectUrl (env : CheckoutEnv) (req : CreemCheckoutReq)
    (user_email : String) : String :=
  (if env.creemTestMode then "https://www.creem.io/test/payment"
   else "https://www.creem.io/payment") ++ "/" ++ req.creem_product_id ++
  "?order_no=" ++ env.snow_id ++ "&email=" ++ encodeUriComponent user_email

/-- POST handler of src/app/api/checkout/creem/route.ts: validate (with the
credits fix-up the route applies), insert the order with status created,
build or request the Creem checkout URL, then attach the session. -/
def creemCheckoutPOST (env : CheckoutEnv) (req : CreemCheckoutReq)
    (db : OrdersDb) : ApiResp × OrdersDb × List Event :=
  if req.amount = 0 ∨ req.interval = "" ∨ req.currency = "" ∨ req.product_id = "" then
    (.err "invalid params", db, [])
  else
    match env.pricing with
    | none => (.err "invalid pricing table", db, [])
    | some items =>
      match items.find? (fun it => it.product_id == req.product_id) with
      | none => (.err "invalid checkout params", db, [])
      | some item =>
        if item.amount = 0 ∨ item.interval = "" ∨ item.currency = "" ∨
           item.interval ≠ req.interval ∨
           item.credits ≠ creemAdjustedCredits item req.credits ∨
           item.valid_months ≠ req.valid_months ∨
           ¬(if req.currency = "cny" then item.cn_amount = some req.amount
             else item.amount = req.amount ∧ item.currency = req.currency) then
          (.err "invalid checkout params", db, [])
        else if ¬(req.interval = "year" ∨ req.interval = "month" ∨
                  req.interval = "one-time") then
          (.err "invalid interval", db, [])
        else if req.interval = "year" ∧ req.valid_months ≠ some 12 then
          (.err "invalid valid_months", db, [])
        else if req.interval = "month" ∧ req.valid_months ≠ some 1 then
          (.err "invalid valid_months", db, [])
        else if env.user_uuid = "" then
          (.err "no auth, please sign-in", db, [])
        else if jsOr env.session_email env.db_user_email = "" then
          (.err "invalid user", db, [])
        else if req.creem_product_id ≠ "" then
          (.data (.creemSession
              (creemDirectUrl env req (jsOr env.session_email env.db_user_email))
              req.creem_product_id env.snow_id),
           updateOrderSession (insertOrder db (creemCheckoutRow env req item))
             env.snow_id req.creem_product_id
             ⟨"", creemDirectUrl env req (jsOr env.session_email env.db_user_email), 0, ""⟩,
           [Event.insertOrderEv env.snow_id statusCreated,
            Event.providerSessionCreated "creem" req.creem_product_id,
            Event.orderSessionUpdated env.snow_id req.creem_product_id])
        else
          match env.creemCreate with
          | .error m =>
              (.err ("Failed to create Creem checkout: " ++ m),
               insertOrder db (creemCheckoutRow env req item),
               [Event.insertOrderEv env.snow_id statusCreated])
          | .ok (checkout_url, session_id) =>
              (.data (.creemSession checkout_url session_id env.snow_id),
               updateOrderSession (insertOrder db (creemCheckoutRow env req item))
                 env.snow_id session_id ⟨"", checkout_url, 0, ""⟩,
               [Event.insertOrderEv env.snow_id statusCreated,
                Event.providerSessionCreated "creem" session_id,
                Event.orderSessionUpdated env.snow_id session_id])

/-- An operation of the embedded system that can read or write the orders
table. -/
inductive Op where
  | checkoutOp (env : CheckoutEnv) (req : CheckoutReq)
  | creemCheckoutOp (env : CheckoutEnv) (req : CreemCheckoutReq)
  | stripeWebhookOp (s : Option StripeSession) (nowIso : String)
  | creemWebhookOp (d : CreemPaymentData) (now : Nat) (nowIso : String)
  | paypalWebhookOp (d : PayPalData) (eventType : String) (nowIso : String)

/-- Effect of one operation on the orders table (webhook handler throws
leave the table as it was at the throw). -/
def applyOp : Op → OrdersDb → OrdersDb × List Event
  | .checkoutOp env req, db =>
      let r := checkoutPOST env req db
      (r.2.1, r.2.2)
  | .creemCheckoutOp env req, db =>
      let r := creemCheckoutPOST env req db
      (r.2.1, r.2.2)
  | .stripeWebhookOp s t, db =>
      match handleOrderSession s db t with
      | .ok (db', evs) => (db', evs)
      | .error (_, dbE, evsE) => (dbE, evsE)
  | .creemWebhookOp d now t, db =>
      match handleCreemOrder d db now t with
      | .ok (db', evs) => (db', evs)
      | .error (_, dbE, evsE) => (dbE, evsE)
  | .paypalWebhookOp d et t, db =>
      match handlePayPalOrder d et db t with
      | .ok (db', evs) => (db', evs)
      | .error (_, dbE, evsE) => (dbE, evsE)

/-- Operations that are one of the three inbound webhook handlers. -/
def Op.isWebhook : Op → Prop
  | .stripeWebhookOp _ _ => True
  | .creemWebhookOp _ _ _ => True
  | .paypalWebhookOp _ _ _ => True
  | _ => False

/-- Operations that are one of the two checkout endpoints. -/
def Op.isCheckout : Op → Prop
  | .checkoutOp _ _ => True
  | .creemCheckoutOp _ _ => True
  | _ => False

/-! Invariant predicates used by the claims. -/

/-- Pairs every row of the old table with the row at the same position in
the new one; a row that was not in status created is untouched. -/
def TouchesOnlyCreated (db db' : OrdersDb) : Prop :=
  db'.length = db.length ∧
  ∀ p ∈ db.zip db', p.1.status ≠ statusCreated → p.2 = p.1

/-- Credits are issued only for an order that was in status created. -/
def CreditsOnlyForCreated (db : OrdersDb) (evs : List Event) : Prop :=
  ∀ no c, Event.issueCredits no c ∈ evs →
    ∃ r ∈ db, r.order_no = no ∧ r.status = statusCreated

/-- Observable effect of one webhook-handler run: either nothing, or a
single updateOrderStatus to paid of an order that was in the table with
status created, together with its post-payment events. -/
def HandlerStep (db db' : OrdersDb) (evs : List Event) : Prop :=
  (db' = db ∧ evs = []) ∨
  ∃ o, o ∈ db ∧ o.status = statusCreated ∧ ∃ pa pe pd,
    db' = updateOrderStatus db o.order_no statusPaid pa pe pd ∧
    evs = postPaidEvents o pe

/-- Observable table effect of one checkout-endpoint run: nothing, or an
insert of a created row, possibly followed by the session attachment to that
row. -/
def CheckoutStep (db db' : OrdersDb) : Prop :=
  db' = db ∨
  ∃ row, row.status = statusCreated ∧
    (db' = insertOrder db row ∨
     ∃ no sid detail, db' = updateOrderSession (insertOrder db row) no sid detail)

/-! Helper lemmas. -/

theorem mem_zip_map {α β : Type _} (f : α → β) (l : List α) :
    ∀ p ∈ l.zip (l.map f), p.2 = f p.1 := by
  induction l with
  | nil => simp
  | cons x xs ih =>
      intro p hp
      simp only [List.map_cons, List.zip_cons_cons, List.mem_cons] at hp
      rcases hp with h | h
      · subst h; rfl
      · exact ih p h

theorem mem_insertDescBy {a r : OrderRow} {l : List OrderRow} :
    a ∈ insertDescBy r l ↔ a = r ∨ a ∈ l := by
  induction l with
  | nil => simp [insertDescBy]
  | cons x xs ih =>
      simp only [insertDescBy]
      split
      · simp only [List.mem_cons, ih]
        tauto
      · simp [List.mem_cons]

theorem mem_sortByCreatedDesc {a : OrderRow} {l : List OrderRow} :
    a ∈ sortByCreatedDesc l ↔ a ∈ l := by
  induction l with
  | nil => simp [sortByCreatedDesc]
  | cons x xs ih =>
      simp only [sortByCreatedDesc, mem_insertDescBy, List.mem_cons, ih]

theorem recentCreatedOrders_mem {db : OrdersDb} {now k : Nat} {r : OrderRow}
    (h : r ∈ recentCreatedOrders db now k) : r ∈ db ∧ r.status = statusCreated := by
  unfold recentCreatedOrders at h
  have h1 := List.take_subset _ _ h
  rw [mem_sortByCreatedDesc] at h1
  have h2 := List.mem_filter.mp h1
  refine ⟨h2.1, ?_⟩
  have := h2.2
  simp only [Bool.and_eq_true, beq_iff_eq, decide_eq_true_eq] at this
  exact this.1

theorem findOrderByOrderNo_mem {db : OrdersDb} {no : String} {r : OrderRow}
    (h : findOrderByOrderNo db no = some r) : r ∈ db ∧ r.order_no = no := by
  refine ⟨List.mem_of_find?_eq_some h, ?_⟩
  have := List.find?_some h
  simpa using this

theorem findOrderBySessionId_mem {db : OrdersDb} {sid : String} {r : OrderRow}
    (h : findOrderBySessionId db sid = some r) : r ∈ db := by
  exact List.mem_of_find?_eq_some h

theorem findOrderByEmailAndAmount_mem {db : OrdersDb} {e : String} {a : Int}
    {r : OrderRow} (h : findOrderByEmailAndAmount db e a = some r) : r ∈ db := by
  exact List.mem_of_find?_eq_some h

theorem emailAmountStep_some {d : CreemPaymentData} {db : OrdersDb} {m : OrderRow}
    (h : emailAmountStep d db = some m) : m ∈ db ∧ m.status = statusCreated := by
  unfold emailAmountStep at h
  split at h
  · split at h
    next mo hfind =>
      split at h
      · cases h
        exact ⟨findOrderByEmailAndAmount_mem hfind, by assumption⟩
      · cases h
    next => cases h
  · cases h

theorem creemIdScan_some {d : CreemPaymentData} {db : OrdersDb} {now : Nat}
    {r : OrderRow} (h : creemIdScan d db now = some r) :
    r ∈ db ∧ r.status = statusCreated := by
  unfold creemIdScan at h
  split at h
  · cases h
  · exact recentCreatedOrders_mem (List.mem_of_find?_eq_some h)

theorem amountOnlyScan_some {d : CreemPaymentData} {db : OrdersDb} {now : Nat}
    {r : OrderRow} (h : amountOnlyScan d db now = some r) :
    r ∈ db ∧ r.status = statusCreated := by
  unfold amountOnlyScan at h
  split at h
  · exact recentCreatedOrders_mem (List.mem_of_find?_eq_some h)
  · cases h

theorem handleOrderSession_step {s : Option StripeSession} {db : OrdersDb}
    {t : String} {db' : OrdersDb} {evs : List Event}
    (h : handleOrderSession s db t = .ok (db', evs)) : HandlerStep db db' evs := by
  cases s with
  | none => exact Except.noConfusion h
  | some ss =>
    simp only [handleOrderSession] at h
    cases hm : ss.metadata with
    | none =>
        simp only [hm] at h
        exact Except.noConfusion h
    | some m =>
        simp only [hm] at h
        by_cases hg : m.order_no = "" ∨ ss.payment_status ≠ "paid"
        · rw [if_pos hg] at h; exact Except.noConfusion h
        · rw [if_neg hg] at h
          cases hfind : findOrderByOrderNo db m.order_no with
          | none => simp only [hfind] at h; exact Except.noConfusion h
          | some order =>
              simp only [hfind] at h
              by_cases hst : order.status ≠ statusCreated
              · rw [if_pos hst] at h; exact Except.noConfusion h
              · rw [if_neg hst] at h
                rw [Except.ok.injEq, Prod.mk.injEq] at h
                refine Or.inr ⟨order, (findOrderByOrderNo_mem hfind).1,
                  not_ne_iff.mp hst, t, jsOr ss.customer_details_email ss.customer_email,
                  PaidDetail.stripeDetail ss.raw, ?_, h.2.symm⟩
                rw [← h.1, (findOrderByOrderNo_mem hfind).2]

theorem handlePayPalOrder_step {d : PayPalData} {et : String} {db : OrdersDb}
    {t : String} {db' : OrdersDb} {evs : List Event}
    (h : handlePayPalOrder d et db t = .ok (db', evs)) : HandlerStep db db' evs := by
  unfold handlePayPalOrder at h
  by_cases h0 : jsOr d.supplementary_order_id d.order_id = ""
  · rw [if_pos h0] at h; exact Except.noConfusion h
  · rw [if_neg h0] at h
    cases hfind : findOrderBySessionId db (jsOr d.supplementary_order_id d.order_id) with
    | none => simp only [hfind] at h; exact Except.noConfusion h
    | some order =>
        simp only [hfind] at h
        by_cases hst : order.status ≠ statusCreated
        · rw [if_pos hst] at h
          rw [Except.ok.injEq, Prod.mk.injEq] at h
          exact Or.inl ⟨h.1.symm, h.2.symm⟩
        · rw [if_neg hst] at h
          rw [Except.ok.injEq, Prod.mk.injEq] at h
          exact Or.inr ⟨order, findOrderBySessionId_mem hfind, not_ne_iff.mp hst,
            t, jsOr d.payer_email order.user_email, PaidDetail.paypalDetail d.raw,
            h.1.symm, h.2.symm⟩

theorem creemFinishFound_step {d : CreemPaymentData} {db : OrdersDb} {no : String}
    {order : OrderRow} {t : String} {db' : OrdersDb} {evs : List Event}
    (hm : order ∈ db) (hno : order.order_no = no)
    (h : creemFinishFound d db no order t = .ok (db', evs)) : HandlerStep db db' evs := by
  unfold creemFinishFound at h
  split at h
  · rw [Except.ok.injEq, Prod.mk.injEq] at h
    exact Or.inl ⟨h.1.symm, h.2.symm⟩
  · split at h
    · rw [Except.ok.injEq, Prod.mk.injEq] at h
      exact Or.inl ⟨h.1.symm, h.2.symm⟩
    next hst =>
      rw [Except.ok.injEq, Prod.mk.injEq] at h
      refine Or.inr ⟨order, hm, not_ne_iff.mp hst, t, paidEmailCreem d,
        PaidDetail.creemDetail d.raw, ?_, h.2.symm⟩
      rw [← h.1, hno]

theorem creemFinish_step {d : CreemPaymentData} {db : OrdersDb} {no : String}
    {oOpt : Option OrderRow} {t : String} {db' : OrdersDb} {evs : List Event}
    (hmem : ∀ o, oOpt = some o → o ∈ db ∧ o.order_no = no)
    (h : creemFinish d db no oOpt t = .ok (db', evs)) : HandlerStep db db' evs := by
  cases oOpt with
  | some order =>
      exact creemFinishFound_step (hmem order rfl).1 (hmem order rfl).2 h
  | none =>
      simp only [creemFinish] at h
      cases hfind : findOrderByOrderNo db no with
      | some order =>
          simp only [hfind] at h
          exact creemFinishFound_step (findOrderByOrderNo_mem hfind).1
            (findOrderByOrderNo_mem hfind).2 h
      | none =>
          simp only [hfind] at h
          split at h
          · rw [Except.ok.injEq, Prod.mk.injEq] at h
            exact Or.inl ⟨h.1.symm, h.2.symm⟩
          · exact Except.noConfusion h

theorem creemNoIdBlock_step {d : CreemPaymentData} {db : OrdersDb} {now : Nat}
    {t : String} {db' : OrdersDb} {evs : List Event}
    (h : creemNoIdBlock d db now t = .ok (db', evs)) : HandlerStep db db' evs := by
  unfold creemNoIdBlock at h
  split at h
  next m hea =>
    rw [Except.ok.injEq, Prod.mk.injEq] at h
    obtain ⟨hm, hms⟩ := emailAmountStep_some hea
    exact Or.inr ⟨m, hm, hms, _, _, _, h.1.symm, h.2.symm⟩
  next hea =>
    split at h
    next r hao =>
      split at h
      · cases h
      · exact creemFinish_step
          (fun o ho => by cases ho; exact ⟨(amountOnlyScan_some hao).1, rfl⟩) h
    next => cases h

theorem handleCreemOrder_step {d : CreemPaymentData} {db : OrdersDb} {now : Nat}
    {t : String} {db' : OrdersDb} {evs : List Event}
    (h : handleCreemOrder d db now t = .ok (db', evs)) : HandlerStep db db' evs := by
  unfold handleCreemOrder at h
  split at h
  · split at h
    next r hscan =>
      split at h
      · exact creemNoIdBlock_step h
      · exact creemFinish_step
          (fun o ho => by cases ho; exact ⟨(creemIdScan_some hscan).1, rfl⟩) h
    next => exact creemNoIdBlock_step h
  · exact creemFinish_step (fun o ho => by cases ho) h

theorem mem_zip_self {α : Type _} {l : List α} : ∀ p ∈ l.zip l, p.2 = p.1 := by
  have h := mem_zip_map (fun x => x) l
  simpa using h

theorem mem_zip_map_append {α β : Type _} (f : α → β) (l t : List α) :
    ∀ p ∈ l.zip ((l ++ t).map f), p.2 = f p.1 := by
  induction l with
  | nil => simp
  | cons x xs ih =>
      intro p hp
      simp only [List.cons_append, List.map_cons, List.zip_cons_cons,
        List.mem_cons] at hp
      rcases hp with h | h
      · subst h; rfl
      · exact ih p h

theorem mem_zip_append_self {α : Type _} {l t : List α} :
    ∀ p ∈ l.zip (l ++ t), p.2 = p.1 := by
  have h := mem_zip_map_append (fun x => x) l t
  simpa using h

theorem updateOrderStatus_length (db : OrdersDb) (no st pa pe : String)
    (pd : PaidDetail) : (updateOrderStatus db no st pa pe pd).length = db.length :=
  List.length_map _ _

theorem issueCredits_postPaidEvents {o : OrderRow} {pe no : String} {c : Int}
    (h : Event.issueCredits no c ∈ postPaidEvents o pe) : no = o.order_no := by
  unfold postPaidEvents at h
  rcases List.mem_append.mp h with h' | h'
  · rcases List.mem_append.mp h' with h'' | h''
    · split at h'' <;> simp_all
    · split at h'' <;> simp_all
  · split at h' <;> simp_all

theorem handlerStep_touches {db db' : OrdersDb} {evs : List Event}
    (hn : (db.map OrderRow.order_no).Nodup) (hs : HandlerStep db db' evs) :
    TouchesOnlyCreated db db' := by
  rcases hs with ⟨hdb, _⟩ | ⟨o, ho, hos, pa, pe, pd, hdb, _⟩
  · subst hdb
    exact ⟨rfl, fun p hp _ => mem_zip_self p hp⟩
  · subst hdb
    refine ⟨updateOrderStatus_length db o.order_no statusPaid pa pe pd, ?_⟩
    intro p hp hne
    have hmap := mem_zip_map _ db p hp
    have hp1 : p.1 ∈ db := (List.of_mem_zip hp).1
    by_cases hno : p.1.order_no = o.order_no
    · exact absurd (by
        have : p.1 = o := List.inj_on_of_nodup_map hn hp1 ho hno
        rw [this]; exact hos) hne
    · rw [hmap, if_neg hno]

theorem handlerStep_credits {db db' : OrdersDb} {evs : List Event}
    (hs : HandlerStep db db' evs) : CreditsOnlyForCreated db evs := by
  rcases hs with ⟨_, hev⟩ | ⟨o, ho, hos, pa, pe, pd, _, hev⟩
  · subst hev; intro no c h; cases h
  · subst hev
    intro no c h
    exact ⟨o, ho, (issueCredits_postPaidEvents h).symm, hos⟩

theorem validateAndCreateOrder_status {env : CheckoutEnv} {req : CheckoutReq}
    {pt : String} {row : OrderRow}
    (h : validateAndCreateOrder env req pt = .ok row) : row.status = statusCreated := by
  unfold validateAndCreateOrder at h
  repeat' split at h
  all_goals try exact Except.noConfusion h
  all_goals (cases h; rfl)

theorem handleOrderSession_error {s : Option StripeSession} {db : OrdersDb}
    {t msg : String} {dbE : OrdersDb} {evsE : List Event}
    (h : handleOrderSession s db t = .error (msg, dbE, evsE)) :
    dbE = db ∧ evsE = [] := by
  cases s with
  | none =>
      simp only [handleOrderSession] at h
      rw [Except.error.injEq, Prod.mk.injEq, Prod.mk.injEq] at h
      exact ⟨h.2.1.symm, h.2.2.symm⟩
  | some ss =>
    simp only [handleOrderSession] at h
    cases hm : ss.metadata with
    | none =>
        simp only [hm] at h
        rw [Except.error.injEq, Prod.mk.injEq, Prod.mk.injEq] at h
        exact ⟨h.2.1.symm, h.2.2.symm⟩
    | some m =>
        simp only [hm] at h
        by_cases hg : m.order_no = "" ∨ ss.payment_status ≠ "paid"
        · rw [if_pos hg] at h
          rw [Except.error.injEq, Prod.mk.injEq, Prod.mk.injEq] at h
          exact ⟨h.2.1.symm, h.2.2.symm⟩
        · rw [if_neg hg] at h
          cases hfind : findOrderByOrderNo db m.order_no with
          | none =>
              simp only [hfind] at h
              rw [Except.error.injEq, Prod.mk.injEq, Prod.mk.injEq] at h
              exact ⟨h.2.1.symm, h.2.2.symm⟩
          | some order =>
              simp only [hfind] at h
              by_cases hst : order.status ≠ statusCreated
              · rw [if_pos hst] at h
                rw [Except.error.injEq, Prod.mk.injEq, Prod.mk.injEq] at h
                exact ⟨h.2.1.symm, h.2.2.symm⟩
              · rw [if_neg hst] at h
                exact Except.noConfusion h

theorem handlePayPalOrder_error {d : PayPalData} {et : String} {db : OrdersDb}
    {t msg : String} {dbE : OrdersDb} {evsE : List Event}
    (h : handlePayPalOrder d et db t = .error (msg, dbE, evsE)) :
    dbE = db ∧ evsE = [] := by
  unfold handlePayPalOrder at h
  by_cases h0 : jsOr d.supplementary_order_id d.order_id = ""
  · rw [if_pos h0] at h
    rw [Except.error.injEq, Prod.mk.injEq, Prod.mk.injEq] at h
    exact ⟨h.2.1.symm, h.2.2.symm⟩
  · rw [if_neg h0] at h
    cases hfind : findOrderBySessionId db (jsOr d.supplementary_order_id d.order_id) with
    | none =>
        simp only [hfind] at h
        rw [Except.error.injEq, Prod.mk.injEq, Prod.mk.injEq] at h
        exact ⟨h.2.1.symm, h.2.2.symm⟩
    | some order =>
        simp only [hfind] at h
        by_cases hst : order.status ≠ statusCreated
        · rw [if_pos hst] at h; exact Except.noConfusion h
        · rw [if_neg hst] at h; exact Except.noConfusion h

theorem creemFinishFound_error {d : CreemPaymentData} {db : OrdersDb}
    {no : String} {order : OrderRow} {t msg : String} {dbE : OrdersDb}
    {evsE : List Event}
    (h : creemFinishFound d db no order t = .error (msg, dbE, evsE)) : False := by
  unfold creemFinishFound at h
  split at h
  · exact Except.noConfusion h
  split at h
  · exact Except.noConfusion h
  · exact Except.noConfusion h

theorem creemFinish_error {d : CreemPaymentData} {db : OrdersDb} {no : String}
    {oOpt : Option OrderRow} {t msg : String} {dbE : OrdersDb} {evsE : List Event}
    (h : creemFinish d db no oOpt t = .error (msg, dbE, evsE)) :
    dbE = db ∧ evsE = [] := by
  cases oOpt with
  | some order => exact absurd h (fun hh => creemFinishFound_error hh)
  | none =>
      simp only [creemFinish] at h
      cases hfind : findOrderByOrderNo db no with
      | some order =>
          simp only [hfind] at h
          exact absurd h (fun hh => creemFinishFound_error hh)
      | none =>
          simp only [hfind] at h
          split at h
          · exact Except.noConfusion h
          · rw [Except.error.injEq, Prod.mk.injEq, Prod.mk.injEq] at h
            exact ⟨h.2.1.symm, h.2.2.symm⟩

theorem creemNoIdBlock_error {d : CreemPaymentData} {db : OrdersDb} {now : Nat}
    {t msg : String} {dbE : OrdersDb} {evsE : List Event}
    (h : creemNoIdBlock d db now t = .error (msg, dbE, evsE)) :
    dbE = db ∧ evsE = [] := by
  unfold creemNoIdBlock at h
  split at h
  · exact Except.noConfusion h
  split at h
  next r hao =>
    split at h
    · rw [Except.error.injEq, Prod.mk.injEq, Prod.mk.injEq] at h
      exact ⟨h.2.1.symm, h.2.2.symm⟩
    · exact creemFinish_error h
  next =>
    rw [Except.error.injEq, Prod.mk.injEq, Prod.mk.injEq] at h
    exact ⟨h.2.1.symm, h.2.2.symm⟩

theorem handleCreemOrder_error {d : CreemPaymentData} {db : OrdersDb} {now : Nat}
    {t msg : String} {dbE : OrdersDb} {evsE : List Event}
    (h : handleCreemOrder d db now t = .error (msg, dbE, evsE)) :
    dbE = db ∧ evsE = [] := by
  unfold handleCreemOrder at h
  split at h
  · split at h
    next r hscan =>
      split at h
      · exact creemNoIdBlock_error h
      · exact creemFinish_error h
    next => exact creemNoIdBlock_error h
  · exact creemFinish_error h

theorem checkoutPOST_step (env : CheckoutEnv) (req : CheckoutReq) (db : OrdersDb) :
    CheckoutStep db (checkoutPOST env req db).2.1 := by
  unfold checkoutPOST
  repeat' split
  all_goals first
    | exact Or.inl rfl
    | (refine Or.inr ⟨_, ?_, Or.inl rfl⟩
       exact validateAndCreateOrder_status (by assumption))
    | (refine Or.inr ⟨_, ?_, Or.inr ⟨_, _, _, rfl⟩⟩
       exact validateAndCreateOrder_status (by assumption))

theorem creemCheckoutPOST_step (env : CheckoutEnv) (req : CreemCheckoutReq)
    (db : OrdersDb) : CheckoutStep db (creemCheckoutPOST env req db).2.1 := by
  unfold creemCheckoutPOST
  repeat' split
  all_goals first
    | exact Or.inl rfl
    | (refine Or.inr ⟨_, ?_, Or.inl rfl⟩; rfl)
    | (refine Or.inr ⟨_, ?_, Or.inr ⟨_, _, _, rfl⟩⟩; rfl)

theorem updateOrderSession_fun_status (no sid : String) (detail : OrderDetail)
    (r : OrderRow) :
    ((fun r => if r.order_no = no then
        { r with stripe_session_id := sid, order_detail := some (some detail) }
      else r) r).status = r.status := by
  by_cases h : r.order_no = no <;> simp [h]

theorem checkoutStep_statuses {db db' : OrdersDb} (hs : CheckoutStep db db') :
    (∀ p ∈ db.zip db', p.2.status = p.1.status) ∧
    (∀ r ∈ db'.drop db.length, r.status = statusCreated) := by
  rcases hs with rfl | ⟨row, hrow, rfl | ⟨no, sid, detail, rfl⟩⟩
  · refine ⟨fun p hp => by rw [mem_zip_self p hp], ?_⟩
    intro r hr
    rw [List.drop_length] at hr
    cases hr
  · constructor
    · intro p hp
      rw [mem_zip_append_self p hp]
    · intro r hr
      unfold insertOrder at hr
      rw [List.drop_left] at hr
      cases hr with
      | head => exact hrow
      | tail _ h => cases h
  · constructor
    · intro p hp
      have := mem_zip_map_append _ db [row] p hp
      rw [this]
      exact updateOrderSession_fun_status no sid detail p.1
    · intro r hr
      unfold updateOrderSession insertOrder at hr
      rw [← List.map_drop, List.drop_left] at hr
      simp only [List.map_cons, List.map_nil, List.mem_cons] at hr
      rcases hr with h | h
      · subst h
        rw [updateOrderSession_fun_status no sid detail row]
        exact hrow
      · cases h

/-- Statuses after a webhook handler step: positionally paired rows change
status only from created to paid, and nothing is appended. -/
theorem handlerStep_statuses {db db' : OrdersDb} {evs : List Event}
    (hn : (db.map OrderRow.order_no).Nodup) (hs : HandlerStep db db' evs) :
    (∀ p ∈ db.zip db', p.2.status ≠ p.1.status →
       p.1.status = statusCreated ∧ p.2.status = statusPaid) ∧
    (∀ r ∈ db'.drop db.length, r.status = statusCreated) := by
  rcases hs with ⟨rfl, _⟩ | ⟨o, ho, hos, pa, pe, pd, rfl, _⟩
  · refine ⟨fun p hp hne => absurd (mem_zip_self p hp ▸ rfl) hne, ?_⟩
    intro r hr
    rw [List.drop_length] at hr
    cases hr
  · constructor
    · intro p hp hne
      have hmap := mem_zip_map _ db p hp
      have hp1 : p.1 ∈ db := (List.of_mem_zip hp).1
      by_cases hno : p.1.order_no = o.order_no
      · have hpo : p.1 = o := List.inj_on_of_nodup_map hn hp1 ho hno
        constructor
        · rw [hpo]; exact hos
        · rw [hmap, if_pos hno]
      · exact absurd (by rw [hmap, if_neg hno]) hne
    · intro r hr
      unfold updateOrderStatus at hr
      rw [← List.map_drop, List.drop_length] at hr
      cases hr

/-! Predicates and helper functions used to state the claims. -/

/-- Guard of handleOrderSession: the session exists, carries
metadata.order_no, and its payment_status is paid. -/
def stripeSessionValid (s : Option StripeSession) : Bool :=
  match s with
  | none => false
  | some ss =>
    match ss.metadata with
    | none => false
    | some m => m.order_no ≠ "" && ss.payment_status == "paid"

/-- Order number carried by a Stripe session's metadata, empty when
absent. -/
def stripeSessionOrderNo (s : Option StripeSession) : String :=
  match s with
  | none => ""
  | some ss =>
    match ss.metadata with
    | none => ""
    | some m => m.order_no

/-- Usability test of the order a Stripe session names: it exists and is
still created. -/
def stripeOrderUsable (db : OrdersDb) (no : String) : Bool :=
  match findOrderByOrderNo db no with
  | none => false
  | some o => o.status == statusCreated

/-- Check of one event trace position: a provider-session-creation event is
preceded by the insert of a created order and followed by the attachment of
that session id to the same order. -/
def sessionAfterInsertB (evs : List Event) : Bool :=
  (List.range evs.length).all fun i =>
    match evs.get? i with
    | some (.providerSessionCreated _ sid) =>
        (List.range i).any fun j =>
          match evs.get? j with
          | some (.insertOrderEv no st) =>
              st == statusCreated &&
              ((List.range evs.length).any fun k =>
                decide (i < k) &&
                match evs.get? k with
                | some (.orderSessionUpdated no' sid') => no' == no && sid' == sid
                | _ => false)
          | _ => false
    | _ => true

/-! Concrete fixtures used by witnesses and counterexamples. -/

/-- Example created order. -/
def rowA : OrderRow :=
  { order_no := "A1", user_uuid := "u1", user_email := "a@b.c", amount := 100,
    credits := 5, status := statusCreated, stripe_session_id := "sessA",
    order_detail := none, created_at := 1000000, paid_at := "", paid_email := "",
    paid_detail := .emptyDetail, interval := "one-time", currency := "usd",
    product_id := "p1", product_name := "P", valid_months := some 0,
    expired_at := 0, pay_type := "" }

/-- Example already-paid order. -/
def rowPaid : OrderRow :=
  { rowA with
      order_no := "B1"
      user_email := "b@b.c"
      amount := 200
      status := statusPaid
      stripe_session_id := "sessB" }

/-- Example orders table: one created and one paid order. -/
def dbW : OrdersDb := [rowA, rowPaid]

/-- Creem payload with no identifier, no email and no amount. -/
def creemNoId : CreemPaymentData :=
  { request_id := "", object_request_id := "", order_no := "", order_id := "",
    metadata_order_no := "", metadata_order_id := "", metadata_user_email := "",
    object_metadata_order_no := "", object_metadata_order_id := "",
    object_order_metadata_order_no := "", object_order_metadata_order_id := "",
    object_order_id := "", object_order_amount := 0, object_order_amount_paid := 0,
    amount := 0, object_order_customer_email := "", object_customer_email := "",
    object_customer_email_direct := "", customer_email := "", email := "",
    status := "", payment_status := "", object_order_status := "", raw := "c" }

/-- Creem payload with only a customer email and amount (and, notably, no
payment status at all). -/
def creemEA : CreemPaymentData :=
  { creemNoId with
      customer_email := "a@b.c"
      amount := 100 }

/-- Creem payload carrying the order number in request_id with a paid
status. -/
def creemById : CreemPaymentData :=
  { creemNoId with
      request_id := "A1"
      status := "paid" }

/-- Stripe session naming the created order with a paid status. -/
def sessA : StripeSession :=
  { metadata := some ⟨"A1"⟩, payment_status := "paid",
    customer_details_email := "a@b.c", customer_email := "", raw := "s" }

/-- Stripe session whose order number matches no local order, although its
customer email and amount match one. -/
def sessZZ : StripeSession := { sessA with metadata := some ⟨"ZZ"⟩ }

/-- PayPal capture resource whose related order id is the stored session id
of the created order. -/
def pdA : PayPalData :=
  { supplementary_order_id := "sessA", order_id := "", payer_email := "p@b.c",
    id := "cap1", status := "COMPLETED", raw := "pp" }

/-- Example pricing item matching rowA's product. -/
def itemP1 : PricingItem :=
  { product_id := "p1", amount := 100, cn_amount := none, currency := "usd",
    interval := "one-time", credits := some 5, valid_months := some 0 }

/-- Example checkout environment with every gateway configured and
successful oracles. -/
def envW : CheckoutEnv :=
  { pricing := some [itemP1], user_uuid := "u1", session_email := "a@b.c",
    db_user_email := "", stripeKeyConfigured := true, paypalConfigured := true,
    creemApiKeyConfigured := true, creemProductIdConfigured := false,
    creemTestMode := true, snow_id := "N1", now := 1000000, nowIso := "T",
    stripeCreate := .ok "ssid1", paypalCreate := .ok ("pp1", "https://a"),
    creemCreate := .ok ("https://c", "cs1") }

/-- Example checkout request matching itemP1. -/
def reqW : CheckoutReq :=
  { credits := some 5, currency := "usd", amount := 100, interval := "one-time",
    product_id := "p1", product_name := "P", valid_months := some 0,
    cancel_url := "", locale := "en", payment_method := "" }

/-! Claim theorems. -/

/-- C1: Paid is terminal and webhook handling is idempotent.  On a table
whose order numbers are distinct, each of the three webhook handlers either
leaves the table unchanged or performs a single updateOrderStatus to paid of
an order whose current status is created (so rows that are not in status
created are untouched, positionally), credits are issued only for an order
that was created, and every thrown error leaves the table exactly as it
was.  Hence a repeated delivery of the same payment notification never
changes an already-paid order. -/
theorem payment_C1 (db : OrdersDb) (hn : (db.map OrderRow.order_no).Nodup) :
    (∀ s t db' evs, handleOrderSession s db t = .ok (db', evs) →
        HandlerStep db db' evs ∧ TouchesOnlyCreated db db' ∧
        CreditsOnlyForCreated db evs) ∧
    (∀ d now t db' evs, handleCreemOrder d db now t = .ok (db', evs) →
        HandlerStep db db' evs ∧ TouchesOnlyCreated db db' ∧
        CreditsOnlyForCreated db evs) ∧
    (∀ d et t db' evs, handlePayPalOrder d et db t = .ok (db', evs) →
        HandlerStep db db' evs ∧ TouchesOnlyCreated db db' ∧
        CreditsOnlyForCreated db evs) ∧
    (∀ s t msg dbE evsE, handleOrderSession s db t = .error (msg, dbE, evsE) →
        dbE = db ∧ evsE = []) ∧
    (∀ d now t msg dbE evsE, handleCreemOrder d db now t = .error (msg, dbE, evsE) →
        dbE = db ∧ evsE = []) ∧
    (∀ d et t msg dbE evsE, handlePayPalOrder d et db t = .error (msg, dbE, evsE) →
        dbE = db ∧ evsE = []) := by
  refine ⟨?_, ?_, ?_, ?_, ?_, ?_⟩
  · intro s t db' evs h
    have hs := handleOrderSession_step h
    exact ⟨hs, handlerStep_touches hn hs, handlerStep_credits hs⟩
  · intro d now t db' evs h
    have hs := handleCreemOrder_step h
    exact ⟨hs, handlerStep_touches hn hs, handlerStep_credits hs⟩
  · intro d et t db' evs h
    have hs := handlePayPalOrder_step h
    exact ⟨hs, handlerStep_touches hn hs, handlerStep_credits hs⟩
  · intro s t msg dbE evsE h
    exact handleOrderSession_error h
  · intro d now t msg dbE evsE h
    exact handleCreemOrder_error h
  · intro d et t msg dbE evsE h
    exact handlePayPalOrder_error h

/-- Witness for C1 at a concrete table and Stripe session. -/
theorem payment_C1_witness :
    (dbW.map OrderRow.order_no).Nodup ∧
    (HandlerStep dbW
       (updateOrderStatus dbW "A1" statusPaid "T" "a@b.c" (.stripeDetail "s"))
       (postPaidEvents rowA "a@b.c") ∧
     TouchesOnlyCreated dbW
       (updateOrderStatus dbW "A1" statusPaid "T" "a@b.c" (.stripeDetail "s")) ∧
     CreditsOnlyForCreated dbW (postPaidEvents rowA "a@b.c")) :=
  ⟨by decide, (payment_C1 dbW (by decide)).1 (some sessA) "T"
    (updateOrderStatus dbW "A1" statusPaid "T" "a@b.c" (.stripeDetail "s"))
    (postPaidEvents rowA "a@b.c") (by decide)⟩

/-- Counterexample to C2 as stated: for the Stripe handler, the identifier
lookup yields no order while an order matching the customer email and
amount exists, yet the handler throws "invalid order" instead of falling
back to matching by email and amount. -/
theorem payment_C2_counterexample :
    handleOrderSession (some sessZZ) dbW "T" = .error ("invalid order", dbW, []) ∧
    findOrderByOrderNo dbW "ZZ" = none ∧
    sessZZ.customer_details_email = "a@b.c" ∧
    findOrderByEmailAndAmount dbW "a@b.c" 100 = some rowA := by
  decide

/-- C2 amended: all three handlers do an identifier-based lookup, but only
handleCreemOrder falls back to matching by customer email and amount; the
Stripe and PayPal handlers throw when their identifier lookup yields no
order. -/
theorem payment_C2 :
    (∀ s db t, stripeSessionValid s = true →
        findOrderByOrderNo db (stripeSessionOrderNo s) = none →
        handleOrderSession s db t = .error ("invalid order", db, [])) ∧
    (∀ d et db t, jsOr d.supplementary_order_id d.order_id ≠ "" →
        findOrderBySessionId db (jsOr d.supplementary_order_id d.order_id) = none →
        handlePayPalOrder d et db t =
          .error ("Order not found for PayPal Order ID: " ++
                    jsOr d.supplementary_order_id d.order_id, db, [])) ∧
    (∀ d db now t m, extractOrderNo d = "" → creemIdScan d db now = none →
        emailAmountStep d db = some m →
        handleCreemOrder d db now t =
          .ok (updateOrderStatus db m.order_no statusPaid t (customerEmailEA d)
                 (.creemDetail d.raw),
               postPaidEvents m (customerEmailEA d))) := by
  refine ⟨?_, ?_, ?_⟩
  · intro s db t hv hfind
    cases s with
    | none => exact absurd hv (by simp [stripeSessionValid])
    | some ss =>
      cases hm : ss.metadata with
      | none => rw [stripeSessionValid, hm] at hv; exact absurd hv (by simp)
      | some m =>
          rw [stripeSessionValid, hm] at hv
          rw [Bool.and_eq_true, beq_iff_eq] at hv
          have hno : m.order_no ≠ "" := by simpa using hv.1
          rw [stripeSessionOrderNo, hm] at hfind
          simp only [handleOrderSession, hm]
          rw [if_neg (by
            intro hg
            rcases hg with hg | hg
            · exact hno hg
            · exact hg hv.2)]
          rw [hfind]
  · intro d et db t h0 hfind
    unfold handlePayPalOrder
    rw [if_neg h0, hfind]
  · intro d db now t m h0 hscan hea
    unfold handleCreemOrder
    rw [if_pos h0, hscan]
    unfold creemNoIdBlock
    rw [hea]

/-- Witness for C2 amended: the PayPal handler at a session id that matches
no order, and the Creem email-plus-amount fallback at a concrete match. -/
theorem payment_C2_witness :
    handlePayPalOrder { pdA with supplementary_order_id := "nosuch" }
        "PAYMENT.CAPTURE.COMPLETED" dbW "T" =
      .error ("Order not found for PayPal Order ID: nosuch", dbW, []) ∧
    handleCreemOrder creemEA dbW 1000001 "T" =
      .ok (updateOrderStatus dbW "A1" statusPaid "T" "a@b.c" (.creemDetail "c"),
           postPaidEvents rowA "a@b.c") := by
  constructor
  · exact payment_C2.2.1 { pdA with supplementary_order_id := "nosuch" }
      "PAYMENT.CAPTURE.COMPLETED" dbW "T" (by decide) (by decide)
  · exact payment_C2.2.2 creemEA dbW 1000001 "T" rowA (by decide) (by decide)
      (by decide)

/-- C3: handleCreemOrder tries its matching strategies in a fixed order and
throws "order_no not found in Creem payment data" exactly when all of them
fail.  On a table whose rows carry nonempty order numbers: the error is
thrown iff the identifier extraction, the Creem-order-id scan, the
email-plus-amount lookup and the amount-only scan all fail; request_id has
the highest extraction priority; a successful extraction skips every
fallback; and a successful scan skips the remaining fallbacks. -/
theorem payment_C3 (d : CreemPaymentData) (db : OrdersDb) (now : Nat) (t : String)
    (hne : ∀ r ∈ db, r.order_no ≠ "") :
    (handleCreemOrder d db now t =
        .error ("order_no not found in Creem payment data", db, []) ↔
      extractOrderNo d = "" ∧ creemIdScan d db now = none ∧
      emailAmountStep d db = none ∧ amountOnlyScan d db now = none) ∧
    (d.request_id ≠ "" → extractOrderNo d = d.request_id) ∧
    (extractOrderNo d ≠ "" →
      handleCreemOrder d db now t = creemFinish d db (extractOrderNo d) none t) ∧
    (∀ r, extractOrderNo d = "" → creemIdScan d db now = some r →
      handleCreemOrder d db now t = creemFinish d db r.order_no (some r) t) := by
  refine ⟨⟨?_, ?_⟩, ?_, ?_, ?_⟩
  · intro herr
    by_cases h0 : extractOrderNo d = ""
    · cases hscan : creemIdScan d db now with
      | some r =>
          have hr := hne r (creemIdScan_some hscan).1
          unfold handleCreemOrder at herr
          rw [if_pos h0] at herr
          simp only [hscan] at herr
          rw [if_neg hr] at herr
          exact absurd herr (fun hh => creemFinishFound_error hh)
      | none =>
          unfold handleCreemOrder at herr
          rw [if_pos h0] at herr
          simp only [hscan] at herr
          unfold creemNoIdBlock at herr
          cases hea : emailAmountStep d db with
          | some m =>
              simp only [hea] at herr
              exact Except.noConfusion herr
          | none =>
              simp only [hea] at herr
              cases hao : amountOnlyScan d db now with
              | some r' =>
                  have hr := hne r' (amountOnlyScan_some hao).1
                  simp only [hao] at herr
                  rw [if_neg hr] at herr
                  exact absurd herr (fun hh => creemFinishFound_error hh)
              | none => exact ⟨h0, rfl, rfl, rfl⟩
    · unfold handleCreemOrder at herr
      rw [if_neg h0] at herr
      cases hfind : findOrderByOrderNo db (extractOrderNo d) with
      | some o =>
          simp only [creemFinish, hfind] at herr
          exact absurd herr (fun hh => creemFinishFound_error hh)
      | none =>
          simp only [creemFinish, hfind] at herr
          split at herr
          · exact Except.noConfusion herr
          · rw [Except.error.injEq, Prod.mk.injEq] at herr
            exact absurd herr.1 (by decide)
  · rintro ⟨h0, hscan, hea, hao⟩
    unfold handleCreemOrder
    rw [if_pos h0, hscan]
    unfold creemNoIdBlock
    rw [hea, hao]
  · intro h
    unfold extractOrderNo jsOr
    rw [if_neg h]
  · intro h0
    unfold handleCreemOrder
    rw [if_neg h0]
  · intro r h0 hscan
    unfold handleCreemOrder
    rw [if_pos h0]
    simp only [hscan]
    exact if_neg (hne r (creemIdScan_some hscan).1)

/-- Witness for C3: a payload with no identifier, email or amount reaches
exactly the reconciliation-failure error on a concrete table. -/
theorem payment_C3_witness :
    (∀ r ∈ dbW, r.order_no ≠ "") ∧
    handleCreemOrder creemNoId dbW 1000001 "T" =
      .error ("order_no not found in Creem payment data", dbW, []) :=
  ⟨by decide,
   ((payment_C3 creemNoId dbW 1000001 "T" (by decide)).1).mpr (by decide)⟩

/-- C4: an order's status is set to paid only by one of the three inbound
webhook handlers; the checkout endpoints insert rows with status created
and never change the status of an existing row.  Over every embedded
operation: a positional status change implies the operation was a webhook
handler and the change was created to paid, and all appended rows have
status created. -/
theorem payment_C4 (op : Op) (db : OrdersDb)
    (hn : (db.map OrderRow.order_no).Nodup) :
    (∀ p ∈ db.zip (applyOp op db).1, p.2.status ≠ p.1.status →
       Op.isWebhook op ∧ p.1.status = statusCreated ∧ p.2.status = statusPaid) ∧
    (∀ r ∈ (applyOp op db).1.drop db.length, r.status = statusCreated) := by
  cases op with
  | checkoutOp env req =>
      have hs := checkoutStep_statuses (checkoutPOST_step env req db)
      exact ⟨fun p hp hne => absurd (hs.1 p hp) hne, hs.2⟩
  | creemCheckoutOp env req =>
      have hs := checkoutStep_statuses (creemCheckoutPOST_step env req db)
      exact ⟨fun p hp hne => absurd (hs.1 p hp) hne, hs.2⟩
  | stripeWebhookOp s t =>
      cases hres : handleOrderSession s db t with
      | ok pr =>
          obtain ⟨db', evs⟩ := pr
          have hs := handlerStep_statuses hn (handleOrderSession_step hres)
          simp only [applyOp, hres]
          exact ⟨fun p hp hne => ⟨trivial, hs.1 p hp hne⟩, hs.2⟩
      | error e =>
          obtain ⟨msg, dbE, evsE⟩ := e
          obtain ⟨hdb, _⟩ := handleOrderSession_error hres
          subst hdb
          simp only [applyOp, hres]
          refine ⟨fun p hp hne => absurd (mem_zip_self p hp ▸ rfl) hne, ?_⟩
          intro r hr
          rw [List.drop_length] at hr
          cases hr
  | creemWebhookOp d now t =>
      cases hres : handleCreemOrder d db now t with
      | ok pr =>
          obtain ⟨db', evs⟩ := pr
          have hs := handlerStep_statuses hn (handleCreemOrder_step hres)
          simp only [applyOp, hres]
          exact ⟨fun p hp hne => ⟨trivial, hs.1 p hp hne⟩, hs.2⟩
      | error e =>
          obtain ⟨msg, dbE, evsE⟩ := e
          obtain ⟨hdb, _⟩ := handleCreemOrder_error hres
          subst hdb
          simp only [applyOp, hres]
          refine ⟨fun p hp hne => absurd (mem_zip_self p hp ▸ rfl) hne, ?_⟩
          intro r hr
          rw [List.drop_length] at hr
          cases hr
  | paypalWebhookOp d et t =>
      cases hres : handlePayPalOrder d et db t with
      | ok pr =>
          obtain ⟨db', evs⟩ := pr
          have hs := handlerStep_statuses hn (handlePayPalOrder_step hres)
          simp only [applyOp, hres]
          exact ⟨fun p hp hne => ⟨trivial, hs.1 p hp hne⟩, hs.2⟩
      | error e =>
          obtain ⟨msg, dbE, evsE⟩ := e
          obtain ⟨hdb, _⟩ := handlePayPalOrder_error hres
          subst hdb
          simp only [applyOp, hres]
          refine ⟨fun p hp hne => absurd (mem_zip_self p hp ▸ rfl) hne, ?_⟩
          intro r hr
          rw [List.drop_length] at hr
          cases hr

/-- Witness for C4 at a concrete checkout operation: existing rows keep
their statuses and the appended row is created. -/
theorem payment_C4_witness :
    (dbW.map OrderRow.order_no).Nodup ∧
    (∀ r ∈ (applyOp (.checkoutOp envW reqW) dbW).1.drop dbW.length,
       r.status = statusCreated) :=
  ⟨by decide, (payment_C4 (.checkoutOp envW reqW) dbW (by decide)).2⟩

/-- C5: handleOrderSession fails atomically.  It throws "invalid session"
exactly when the session is absent, lacks metadata.order_no, or has a
payment_status other than paid; it throws "invalid order" exactly when the
session is valid but the named order is missing or not in status created;
and every error leaves the table unchanged with no events issued. -/
theorem payment_C5 (s : Option StripeSession) (db : OrdersDb) (t : String) :
    (handleOrderSession s db t = .error ("invalid session", db, []) ↔
       stripeSessionValid s = false) ∧
    (handleOrderSession s db t = .error ("invalid order", db, []) ↔
       stripeSessionValid s = true ∧
       stripeOrderUsable db (stripeSessionOrderNo s) = false) ∧
    (∀ msg dbE evsE, handleOrderSession s db t = .error (msg, dbE, evsE) →
        dbE = db ∧ evsE = []) := by
  refine ⟨?_, ?_, fun msg dbE evsE h => handleOrderSession_error h⟩
  all_goals
    cases s with
    | none => simp [handleOrderSession, stripeSessionValid]
    | some ss =>
      cases hm : ss.metadata with
      | none =>
          simp [handleOrderSession, stripeSessionValid, stripeSessionOrderNo, hm]
      | some m =>
        by_cases hg : m.order_no = "" ∨ ss.payment_status ≠ "paid"
        · have hvf : stripeSessionValid (some ss) = false := by
            rw [stripeSessionValid, hm]
            rcases hg with h | h
            · simp [h]
            · simp [h]
          simp [handleOrderSession, hm, if_pos hg, hvf]
        · have hvt : stripeSessionValid (some ss) = true := by
            rw [stripeSessionValid, hm]
            push_neg at hg
            simp [hg.1, hg.2]
          cases hfind : findOrderByOrderNo db m.order_no with
          | none =>
              have hus : stripeOrderUsable db (stripeSessionOrderNo (some ss)) = false := by
                rw [stripeOrderUsable, stripeSessionOrderNo, hm, hfind]
              simp [handleOrderSession, hm, if_neg hg, hfind, hvt, hus]
          | some o =>
              by_cases hst : o.status ≠ statusCreated
              · have hus : stripeOrderUsable db (stripeSessionOrderNo (some ss)) = false := by
                  rw [stripeOrderUsable, stripeSessionOrderNo, hm, hfind]
                  simp [hst]
                simp [handleOrderSession, hm, if_neg hg, hfind, if_pos hst, hvt, hus]
              · have hus : stripeOrderUsable db (stripeSessionOrderNo (some ss)) = true := by
                  rw [stripeOrderUsable, stripeSessionOrderNo, hm, hfind]
                  simp [not_ne_iff.mp hst]
                simp [handleOrderSession, hm, if_neg hg, hfind, if_neg hst, hvt, hus]

/-- Witness for C5: concrete sessions hitting the invalid-session and
invalid-order errors, and the error-state part at a concrete error. -/
theorem payment_C5_witness :
    (handleOrderSession none dbW "T" = .error ("invalid session", dbW, [])) ∧
    (handleOrderSession (some sessZZ) dbW "T" = .error ("invalid order", dbW, [])) ∧
    (dbW = dbW ∧ ([] : List Event) = []) :=
  ⟨(payment_C5 none dbW "T").1.mpr (by decide),
   (payment_C5 (some sessZZ) dbW "T").2.1.mpr (by decide),
   (payment_C5 (some sessZZ) dbW "T").2.2 "invalid order" dbW []
     ((payment_C5 (some sessZZ) dbW "T").2.1.mpr (by decide))⟩

theorem sessionAfterInsertB_nil : sessionAfterInsertB [] = true := rfl

theorem sessionAfterInsertB_single (no st : String) :
    sessionAfterInsertB [.insertOrderEv no st] = true := rfl

theorem sessionAfterInsertB_triple {st : String} (no p sid : String)
    (hst : st = statusCreated) :
    sessionAfterInsertB [.insertOrderEv no st, .providerSessionCreated p sid,
                         .orderSessionUpdated no sid] = true := by
  subst hst
  simp [sessionAfterInsertB, List.range_succ]

/-- C6: in every checkout request the local order row is inserted with
status created before the provider-hosted session is created, and the
resulting session identifier is then attached to that same order: every
provider-session-creation event in the trace of either checkout endpoint is
preceded by the insert of the created order and followed by the session
attachment carrying the same order number and session id. -/
theorem payment_C6 (env : CheckoutEnv) (db : OrdersDb) :
    (∀ req : CheckoutReq, sessionAfterInsertB (checkoutPOST env req db).2.2 = true) ∧
    (∀ req : CreemCheckoutReq,
       sessionAfterInsertB (creemCheckoutPOST env req db).2.2 = true) := by
  constructor <;> intro req
  · unfold checkoutPOST
    repeat' split
    all_goals first
      | exact sessionAfterInsertB_nil
      | exact sessionAfterInsertB_single _ _
      | exact sessionAfterInsertB_triple _ _ _
          (validateAndCreateOrder_status (by assumption))
  · unfold creemCheckoutPOST
    repeat' split
    all_goals first
      | exact sessionAfterInsertB_nil
      | exact sessionAfterInsertB_single _ _
      | exact sessionAfterInsertB_triple _ _ _ rfl

/-- C7: the unified checkout endpoint supports exactly the gateways stripe,
paypal and creem; any other requested method yields an error response (and,
once validation passes, exactly the unsupported-method message); an absent
method selects creem when Creem is configured and otherwise the first
configured gateway in the order Stripe, PayPal, Creem; and with nothing
configured the endpoint returns the no-gateway error. -/
theorem payment_C7 (env : CheckoutEnv) (req : CheckoutReq) (db : OrdersDb) :
    (req.payment_method ≠ "" → req.payment_method ≠ "stripe" →
     req.payment_method ≠ "paypal" → req.payment_method ≠ "creem" →
       (∃ m, (checkoutPOST env req db).1 = .err m) ∧
       (∀ row, validateAndCreateOrder env req req.payment_method = .ok row →
          (checkoutPOST env req db).1 =
            .err ("Unsupported payment method: " ++ req.payment_method))) ∧
    (req.payment_method = "" → creemConfigured env →
       resolvePaymentMethod env req.payment_method = some "creem") ∧
    (req.payment_method = "" → ¬creemConfigured env →
       resolvePaymentMethod env req.payment_method = selectPaymentMethod env) ∧
    (env.stripeKeyConfigured = true → selectPaymentMethod env = some "stripe") ∧
    (env.stripeKeyConfigured = false → env.paypalConfigured = true →
       selectPaymentMethod env = some "paypal") ∧
    (env.stripeKeyConfigured = false → env.paypalConfigured = false →
       creemConfigured env → selectPaymentMethod env = some "creem") ∧
    (req.payment_method = "" → env.stripeKeyConfigured = false →
       env.paypalConfigured = false → ¬creemConfigured env →
       checkoutPOST env req db =
         (.err "No payment method available. Please configure at least one payment gateway.",
          db, [])) ∧
    (req.payment_method = "creem" →
       ∀ row, validateAndCreateOrder env req "creem" = .ok row →
         (checkoutPOST env req db).1 = .data (.creemRedirect row.order_no)) := by
  refine ⟨?_, ?_, ?_, ?_, ?_, ?_, ?_, ?_⟩
  · intro hne h1 h2 h3
    have hres : resolvePaymentMethod env req.payment_method =
        some req.payment_method := by
      unfold resolvePaymentMethod
      rw [if_pos hne]
    cases hval : validateAndCreateOrder env req req.payment_method with
    | error m =>
        constructor
        · exact ⟨jsOr m "checkout failed", by
            simp only [checkoutPOST, hres, hval]⟩
        · intro row hrow
          exact Except.noConfusion hrow
    | ok row =>
        constructor
        · exact ⟨"Unsupported payment method: " ++ req.payment_method, by
            simp only [checkoutPOST, hres, hval]⟩
        · intro row' hrow'
          simp only [checkoutPOST, hres, hval]
  · intro h0 hc
    unfold resolvePaymentMethod
    rw [if_neg (by simpa using h0), if_pos hc]
  · intro h0 hc
    unfold resolvePaymentMethod
    rw [if_neg (by simpa using h0), if_neg hc]
  · intro hs
    unfold selectPaymentMethod
    rw [if_pos hs]
  · intro hs hp
    unfold selectPaymentMethod
    rw [if_neg (by simp [hs]), if_pos hp]
  · intro hs hp hc
    unfold selectPaymentMethod
    rw [if_neg (by simp [hs]), if_neg (by simp [hp]),
        if_pos (show env.creemApiKeyConfigured = true ∨
                     env.creemProductIdConfigured = true from hc)]
  · intro h0 hs hp hc
    have hres : resolvePaymentMethod env req.payment_method = none := by
      unfold resolvePaymentMethod selectPaymentMethod
      rw [if_neg (by simpa using h0), if_neg hc,
          if_neg (by simp [hs]), if_neg (by simp [hp]),
          if_neg (show ¬(env.creemApiKeyConfigured = true ∨
                         env.creemProductIdConfigured = true) from hc)]
    simp only [checkoutPOST, hres]
  · intro hpm row hrow
    have hres : resolvePaymentMethod env req.payment_method = some "creem" := by
      rw [hpm]
      unfold resolvePaymentMethod
      rw [if_pos (by decide)]
    simp only [checkoutPOST, hres, hrow]

/-- Checkout environment with no payment gateway configured. -/
def envNone : CheckoutEnv :=
  { envW with
      stripeKeyConfigured := false
      paypalConfigured := false
      creemApiKeyConfigured := false
      creemProductIdConfigured := false }

/-- Witness for C7: an unknown non-empty payment method yields an error
response, and with no gateway configured the endpoint returns the
no-gateway error. -/
theorem payment_C7_witness :
    (∃ m, (checkoutPOST envW { reqW with payment_method := "foo" } dbW).1 = .err m) ∧
    checkoutPOST envNone reqW dbW =
      (.err "No payment method available. Please configure at least one payment gateway.",
       dbW, []) :=
  ⟨((payment_C7 envW { reqW with payment_method := "foo" } dbW).1
      (by decide) (by decide) (by decide) (by decide)).1,
   (payment_C7 envNone reqW dbW).2.2.2.2.2.2.1 (by decide) (by decide) (by decide)
     (by decide)⟩

/-- C8: PayPal webhook processing does not depend on signature validity —
the notify route behaves identically whether the verification result is
true or false — and verifyPayPalWebhookSignature performs no cryptographic
check: it returns true exactly when the five PAYPAL transmission headers
are present and a webhook id is configured. -/
theorem payment_C8 :
    (∀ env body db t,
       paypalNotifyPOST env body true db t = paypalNotifyPOST env body false db t) ∧
    (∀ b h wid ewid, verifyPayPalWebhookSignature b h wid ewid = true ↔
       (h.authAlgo ≠ "" ∧ h.certUrl ≠ "" ∧ h.transmissionId ≠ "" ∧
        h.transmissionSig ≠ "" ∧ h.transmissionTime ≠ "" ∧ jsOr wid ewid ≠ "")) := by
  constructor
  · intro env body db t
    rfl
  · intro b h wid ewid
    unfold verifyPayPalWebhookSignature
    split
    next hc =>
      refine iff_of_false (by simp) ?_
      rintro ⟨h1, h2, h3, h4, h5, _⟩
      rcases hc with c | c | c | c | c
      · exact h1 c
      · exact h2 c
      · exact h3 c
      · exact h4 c
      · exact h5 c
    next hc =>
      push_neg at hc
      split
      next hw =>
        exact iff_of_true rfl ⟨hc.1, hc.2.1, hc.2.2.1, hc.2.2.2.1, hc.2.2.2.2, hw⟩
      next hw =>
        refine iff_of_false (by simp) ?_
        rintro ⟨_, _, _, _, _, h6⟩
        exact hw h6

/-- Witness for C8: the route at a concrete body under both verification
results, and the verification function at concrete headers. -/
theorem payment_C8_witness :
    paypalNotifyPOST ⟨"cid", "sec", "wh"⟩ NotifyBody.emptyBody true dbW "T" =
      paypalNotifyPOST ⟨"cid", "sec", "wh"⟩ NotifyBody.emptyBody false dbW "T" ∧
    verifyPayPalWebhookSignature "b" ⟨"a", "c", "ti", "ts", "tt"⟩ "wh" "" = true :=
  ⟨payment_C8.1 ⟨"cid", "sec", "wh"⟩ NotifyBody.emptyBody dbW "T",
   (payment_C8.2 "b" ⟨"a", "c", "ti", "ts", "tt"⟩ "wh" "").mpr (by decide)⟩

/-- C9: a webhook payload with neither an event_type nor a type field is
parsed as a PAYMENT.CAPTURE.COMPLETED event whose data is the whole
payload, and the notify route then dispatches it to handlePayPalOrder as a
completed payment capture. -/
theorem payment_C9 (e : PayPalEventData) (env : PayPalEnv) (db : OrdersDb)
    (t : String) (h1 : e.event_type = "") (h2 : e.type_field = "") :
    parsePayPalWebhookEvent e = ("PAYMENT.CAPTURE.COMPLETED", e.asPayload) ∧
    (env.clientId ≠ "" → env.clientSecret ≠ "" → ∀ b,
      paypalNotifyPOST env (.parsed e) b db t =
        match handlePayPalOrder e.asPayload "PAYMENT.CAPTURE.COMPLETED" db t with
        | .ok (db', evs) => (.okResp, db', evs)
        | .error (msg, dbE, evsE) =>
            (.errResp 500 ("handle paypal notify failed: " ++ msg), dbE, evsE)) := by
  have hp : parsePayPalWebhookEvent e = ("PAYMENT.CAPTURE.COMPLETED", e.asPayload) := by
    unfold parsePayPalWebhookEvent
    rw [if_neg (not_ne_iff.mpr h1), if_neg (not_ne_iff.mpr h2)]
  refine ⟨hp, ?_⟩
  intro hc1 hc2 b
  unfold paypalNotifyPOST
  rw [if_neg (by push_neg; exact ⟨hc1, hc2⟩)]
  simp only [hp]
  rw [if_pos (Or.inl trivial)]

/-- Witness for C9: a concrete untyped payload is dispatched as a completed
capture and marks the created order paid. -/
theorem payment_C9_witness :
    parsePayPalWebhookEvent ⟨"", "", none, none, pdA⟩ =
      ("PAYMENT.CAPTURE.COMPLETED", pdA) ∧
    paypalNotifyPOST ⟨"cid", "sec", "wh"⟩ (.parsed ⟨"", "", none, none, pdA⟩)
        true dbW "T" =
      (.okResp,
       updateOrderStatus dbW "A1" statusPaid "T" "p@b.c" (.paypalDetail "pp"),
       postPaidEvents rowA "p@b.c") := by
  have h := payment_C9 ⟨"", "", none, none, pdA⟩ ⟨"cid", "sec", "wh"⟩ dbW "T"
    (by decide) (by decide)
  refine ⟨h.1, ?_⟩
  rw [h.2 (by decide) (by decide) true]
  decide

/-- C10: the Creem email-plus-amount fallback marks the matched created
order paid without inspecting any payment-status field (the result is the
paid update for every payload reaching that path), whereas the identifier
path updates only when the extracted status is paid, succeeded or completed
and otherwise returns with the table unchanged. -/
theorem payment_C10 (d : CreemPaymentData) (db : OrdersDb) (now : Nat) (t : String) :
    (∀ m, extractOrderNo d = "" → creemIdScan d db now = none →
       emailAmountStep d db = some m →
       handleCreemOrder d db now t =
         .ok (updateOrderStatus db m.order_no statusPaid t (customerEmailEA d)
                (.creemDetail d.raw),
              postPaidEvents m (customerEmailEA d))) ∧
    (extractOrderNo d ≠ "" →
       paymentStatusOf d ≠ "paid" → paymentStatusOf d ≠ "succeeded" →
       paymentStatusOf d ≠ "completed" →
       handleCreemOrder d db now t = .ok (db, [])) ∧
    (∀ r, extractOrderNo d ≠ "" →
       ¬(paymentStatusOf d ≠ "paid" ∧ paymentStatusOf d ≠ "succeeded" ∧
         paymentStatusOf d ≠ "completed") →
       findOrderByOrderNo db (extractOrderNo d) = some r →
       r.status = statusCreated →
       handleCreemOrder d db now t =
         .ok (updateOrderStatus db (extractOrderNo d) statusPaid t
                (paidEmailCreem d) (.creemDetail d.raw),
              postPaidEvents r (paidEmailCreem d))) := by
  refine ⟨?_, ?_, ?_⟩
  · intro m h0 hscan hea
    unfold handleCreemOrder
    rw [if_pos h0]
    simp only [hscan]
    unfold creemNoIdBlock
    simp only [hea]
  · intro h0 hp1 hp2 hp3
    unfold handleCreemOrder
    rw [if_neg h0]
    cases hfind : findOrderByOrderNo db (extractOrderNo d) with
    | some o =>
        simp only [creemFinish, hfind]
        unfold creemFinishFound
        rw [if_pos ⟨hp1, hp2, hp3⟩]
    | none =>
        simp only [creemFinish, hfind]
        rw [if_pos ⟨hp1, hp2, hp3⟩]
  · intro r h0 hps hfind hst
    unfold handleCreemOrder
    rw [if_neg h0]
    simp only [creemFinish, hfind]
    unfold creemFinishFound
    rw [if_neg hps, if_neg (not_ne_iff.mpr hst)]

/-- Witness for C10: a payload with only email and amount (and no status at
all) marks the order paid via the fallback, while an identifier payload
with a non-success status leaves the table unchanged. -/
theorem payment_C10_witness :
    handleCreemOrder creemEA dbW 1000001 "T" =
      .ok (updateOrderStatus dbW "A1" statusPaid "T" "a@b.c" (.creemDetail "c"),
           postPaidEvents rowA "a@b.c") ∧
    handleCreemOrder { creemById with status := "open" } dbW 1000001 "T" =
      .ok (dbW, []) :=
  ⟨(payment_C10 creemEA dbW 1000001 "T").1 rowA (by decide) (by decide) (by decide),
   (payment_C10 { creemById with status := "open" } dbW 1000001 "T").2.1
     (by decide) (by decide) (by decide) (by decide)⟩

end Astro
